import Mathlib

/-!
Shallow embedding of the core of the vscode-gitignore extension:
the two Github template providers (`src/providers/github-gitignore-repository.ts`,
which holds both `GithubGitignoreRepositoryProvider` and `GithubGitignoreApiProvider`),
the expiring cache consumed by both (spec-modelled: `src/cache.ts` is not part of the
sources, only its tests and callers are), and the HTTP client policy (`http-client.ts`).

The HTTP layer is abstracted as an explicit fetch-outcome parameter: a request either
yields a 200 body, a non-200 status with a body, or a transport-level error carrying a
message.  The filesystem is an explicit association list from paths to file contents.
Time is an explicit natural-number parameter (seconds), threaded into the cache calls.
-/

namespace VscodeGitignore

/-! ### String helpers (JS `String.prototype` operations used by the providers) -/

/-- Does `p` occur as a prefix of the second list?  (Bool-valued, structural.) -/
def leadsWith : List Char → List Char → Bool
  | [], _ => true
  | _ :: _, [] => false
  | p :: ps, c :: cs => p == c && leadsWith ps cs

/-- JS `s.endsWith(pat)` on the underlying character lists. -/
def charsEndWith (pat s : List Char) : Bool :=
  leadsWith pat.reverse s.reverse

/-- JS `s.replace(/pat/, '')` for a literal pattern without the global flag:
removes the first occurrence of `pat`, leaves the string unchanged when `pat`
does not occur. -/
def removeFirstOcc (pat : List Char) : List Char → List Char
  | [] => []
  | c :: cs =>
    if leadsWith pat (c :: cs) then (c :: cs).drop pat.length
    else c :: removeFirstOcc pat cs

/-- The character list of the template file suffix `".gitignore"`. -/
def gitignoreSuffix : List Char := ".gitignore".data

/-- JS `name.endsWith('.gitignore')`. -/
def nameEndsWithGitignore (name : String) : Bool :=
  charsEndWith gitignoreSuffix name.data

/-- JS `name.replace(/\.gitignore/, '')`: removes the FIRST occurrence of
`".gitignore"` in `name` (the regex is not anchored and not global). -/
def replaceFirstGitignore (name : String) : String :=
  String.mk (removeFirstOcc gitignoreSuffix name.data)

/-! ### Data model (`src/interfaces.ts`) -/

/-- `enum GitignoreOperationType { Append, Overwrite }`. -/
inductive GitignoreOperationType
  | Append
  | Overwrite
deriving DecidableEq, Repr

/-- The fields of `GitignoreTemplate` the providers construct and consume
(`name` and `path`; `download_url` and `type` are never populated by either
provider implementation). -/
structure GitignoreTemplate where
  name : String
  path : String
deriving DecidableEq, Repr

/-- The JS value stored in `operation.template`: a proper template object,
the JS `null`, or the JS `undefined`.  `null` and `undefined` are kept apart
because the two providers test them differently (`== null` vs `=== null`). -/
inductive TemplateRef
  | defined (t : GitignoreTemplate)
  | null
  | undef
deriving DecidableEq, Repr

/-- `interface GitignoreOperation { type; path; template }`. -/
structure GitignoreOperation where
  type : GitignoreOperationType
  path : String
  template : TemplateRef
deriving DecidableEq, Repr

/-! ### Expiring cache

Modelled from the spec: `src/cache.ts` is absent from the sources (only
`src/test/suite/cache.test.ts` and the provider call sites exist).  Spec §4.1:
`construct(expirationIntervalSeconds)` fixes the shared expiry window (0 means
entries are immediately stale); `add(key, value)` inserts/overwrites an entry
stamping the current time; `get(key)` returns the cached value only if
`now - storedAt < expirationIntervalSeconds`, otherwise behaves as if absent. -/

/-- A key/value pair, as constructed by `new CacheItem(key, value)`. -/
structure CacheItem (α : Type) where
  key : String
  value : α
deriving DecidableEq, Repr

/-- The cache: the expiry window fixed at construction, plus the stored
entries `(key, value, storedAt)`.  Newer entries are prepended, so lookup
finds the most recent entry for a key (insert-or-overwrite semantics). -/
structure Cache (α : Type) where
  expirationIntervalSeconds : Nat
  store : List (String × α × Nat) := []
deriving Repr

/-- `cache.add(item)`: insert/overwrite, stamping the current time `now`. -/
def Cache.add {α : Type} (c : Cache α) (item : CacheItem α) (now : Nat) : Cache α :=
  { c with store := (item.key, item.value, now) :: c.store }

/-- `cache.get(key)`: the most recently stored value for `key`, provided
`now - storedAt < expirationIntervalSeconds`; `undefined` (here `none`)
otherwise. -/
def Cache.get {α : Type} (c : Cache α) (key : String) (now : Nat) : Option α :=
  match c.store.find? (fun e => e.1 == key) with
  | some e => if now - e.2.2 < c.expirationIntervalSeconds then some e.2.1 else none
  | none => none

/-! ### Filesystem model

An association list from paths to file contents; the head entry for a path is
its current content. -/

/-- A model filesystem: list of `(path, content)` pairs, most recent first. -/
abbrev FileSystem := List (String × String)

/-- The current content of `p`, when the file exists. -/
def fsLookup (fs : FileSystem) (p : String) : Option String :=
  (fs.find? (fun e => e.1 == p)).map (fun e => e.2)

/-- Create or replace the file at `p` with `content`. -/
def fsSet (fs : FileSystem) (p : String) (content : String) : FileSystem :=
  (p, content) :: fs.filter (fun e => e.1 != p)

/-- `fs.unlink(p)`: remove the file at `p` (no-op when absent). -/
def fsRemove (fs : FileSystem) (p : String) : FileSystem :=
  fs.filter (fun e => e.1 != p)

/-- Append `s` to the file at `p`, creating it when absent. -/
def fsAppend (fs : FileSystem) (p : String) (s : String) : FileSystem :=
  fsSet fs p (((fsLookup fs p).getD "") ++ s)

/-- The `flags` value passed to `fs.createWriteStream`. -/
inductive WriteFlags
  | w
  | a
deriving DecidableEq, Repr

/-- `fs.createWriteStream(p, { flags })`: with `'w'` the file is
created/truncated to empty; with `'a'` it is created empty when absent and
left intact when present. -/
def createWriteStream (fs : FileSystem) (p : String) (flags : WriteFlags) : FileSystem :=
  match flags with
  | .w => fsSet fs p ""
  | .a => fsSet fs p ((fsLookup fs p).getD "")

/-! ### HTTP fetch outcomes -/

/-- One entry of the JSON array returned by the Github contents endpoint,
as the decoded `GithubRepositoryItem` interface. -/
structure GithubRepositoryItem where
  name : String
  path : String
  download_url : String
  type : String
deriving DecidableEq, Repr

/-- Outcome of a contents-listing request: a decoded 200 JSON array, a
non-200 status with its raw body, or a transport error with its message. -/
inductive ListingFetch
  | ok (items : List GithubRepositoryItem)
  | status (code : Nat) (body : String)
  | netError (msg : String)
deriving DecidableEq, Repr

/-- Outcome of a templates-API listing request (`GET /gitignore/templates`):
a decoded 200 JSON array of plain template names, a non-200 status with its
raw body, or a transport error. -/
inductive ApiListingFetch
  | ok (names : List String)
  | status (code : Nat) (body : String)
  | netError (msg : String)
deriving DecidableEq, Repr

/-- Outcome of a raw-content download request. -/
inductive RawFetch
  | ok (body : String)
  | status (code : Nat) (body : String)
  | netError (msg : String)
deriving DecidableEq, Repr

/-- A failing raw fetch (non-200 or transport error). -/
def RawFetch.failed : RawFetch → Bool
  | .ok _ => false
  | .status _ _ => true
  | .netError _ => true

/-! ### Download outcomes -/

/-- How one `download`/`downloadToStream` call terminates, seen by the caller:
the promise resolves; it rejects with the status-code-bearing
`Error('Download failed with status code N')`; it rejects with `err.message`
of a transport error; it rejects with the `TypeError` raised inside the
promise executor when dereferencing an absent `operation.template`; or the
call throws synchronously before any promise is created. -/
inductive DownloadOutcome
  | resolved
  | rejectedStatus (code : Nat)
  | rejectedTransport (msg : String)
  | rejectedTypeError
  | syncThrow (msg : String)
deriving DecidableEq, Repr

/-- Result of a `download` call: the caller-visible outcome plus the final
filesystem. -/
structure DownloadResult where
  outcome : DownloadOutcome
  fs : FileSystem
deriving DecidableEq, Repr

/-- Result of a `downloadToStream` call: the outcome, the final filesystem,
and the content accumulated in the caller-supplied sink. -/
structure StreamResult where
  outcome : DownloadOutcome
  fs : FileSystem
  sink : String
deriving DecidableEq, Repr

/-! ### Listing post-processing shared shape -/

/-- The 200-response handler of `GithubGitignoreRepositoryProvider.getFiles`:
keep entries with `item.type === 'file' && item.name.endsWith('.gitignore')`,
map each to `{ name: item.name.replace(/\.gitignore/, ''), path: item.path }`. -/
def processItems (items : List GithubRepositoryItem) : List GitignoreTemplate :=
  (items.filter (fun item => item.type == "file" && nameEndsWithGitignore item.name)).map
    (fun item => { name := replaceFirstGitignore item.name, path := item.path })

/-- The comparator-driven sort
`.sort((a, b) => a.name.localeCompare(b.name))`; `localeCompare` is kept
abstract as an integer-valued comparator `cmp` on names. -/
def sortTemplates (cmp : String → String → Int) (ts : List GitignoreTemplate) :
    List GitignoreTemplate :=
  List.insertionSort (fun a b => cmp a.name b.name ≤ 0) ts

/-- Result of one `getFiles` sub-call: the settled promise (`Except` carries
the JS rejection value, a plain string in both failure branches), the cache
after the call, and how many network requests were issued (0 or 1). -/
structure GetFilesResult where
  result : Except String (List GitignoreTemplate)
  cache : Cache (List GitignoreTemplate)
  networkCalls : Nat
deriving Repr

/-! ### `GithubGitignoreRepositoryProvider` (contents strategy) -/

namespace GithubGitignoreRepositoryProvider

/-- `getFiles(path)`: consult the cache under key `'gitignore/' + path`; on a
hit resolve the cached list with no network call; on a miss issue the request
— non-200 rejects with the raw response body, a transport error rejects with
`err.message`, and a 200 response is filtered/mapped by `processItems` and
cached under the same key before resolving. -/
def getFiles (cache : Cache (List GitignoreTemplate)) (path : String) (now : Nat)
    (fetch : ListingFetch) : GetFilesResult :=
  match cache.get ("gitignore/" ++ path) now with
  | some item => ⟨.ok item, cache, 0⟩
  | none =>
    match fetch with
    | .ok items =>
      let templates := processItems items
      ⟨.ok templates, cache.add ⟨"gitignore/" ++ path, templates⟩ now, 1⟩
    | .status _ body => ⟨.error body, cache, 1⟩
    | .netError msg => ⟨.error msg, cache, 1⟩

/-- Result of `getTemplates`: the settled promise, the cache after both
sub-calls, and the per-sub-path network call counts. -/
structure GetTemplatesResult where
  result : Except String (List GitignoreTemplate)
  cache : Cache (List GitignoreTemplate)
  rootCalls : Nat
  globalCalls : Nat
deriving Repr

/-- `getTemplates()`: `Promise.all([getFiles(), getFiles('Global')])`, then
concatenate both result sets and sort by `a.name.localeCompare(b.name)`.
The two sub-calls run concurrently in the source but read and write disjoint
cache keys (`'gitignore/'` vs `'gitignore/Global'`), so threading the cache
sequentially is observationally identical. -/
def getTemplates (cmp : String → String → Int) (cache : Cache (List GitignoreTemplate))
    (now : Nat) (fetchRoot fetchGlobal : ListingFetch) : GetTemplatesResult :=
  let r1 := getFiles cache "" now fetchRoot
  let r2 := getFiles r1.cache "Global" now fetchGlobal
  match r1.result, r2.result with
  | .ok ts1, .ok ts2 => ⟨.ok (sortTemplates cmp (ts1 ++ ts2)), r2.cache, r1.networkCalls, r2.networkCalls⟩
  | .error e, _ => ⟨.error e, r2.cache, r1.networkCalls, r2.networkCalls⟩
  | _, .error e => ⟨.error e, r2.cache, r1.networkCalls, r2.networkCalls⟩

/-- `download(operation)`: open the destination write stream (`'w'` for
Overwrite, `'a'` for Append), write the `'\n'` separator when appending, then
build the request URL from `operation.template.path` — dereferencing an
absent template throws a `TypeError` inside the executor, rejecting the
promise after the filesystem was already touched.  A 200 response is piped
into the file and the promise resolves; a non-200 response rejects with the
status-code-bearing error (no cleanup); a transport error unlinks the file
when the flags were `'w'` and rejects with `err.message`. -/
def download (op : GitignoreOperation) (fetch : RawFetch) (fs : FileSystem) :
    DownloadResult :=
  let flags := if op.type = GitignoreOperationType.Overwrite then WriteFlags.w else WriteFlags.a
  let fs1 := createWriteStream fs op.path flags
  let fs2 := if flags = WriteFlags.a then fsAppend fs1 op.path "\n" else fs1
  match op.template with
  | .defined _ =>
    match fetch with
    | .ok body => ⟨.resolved, fsAppend fs2 op.path body⟩
    | .status code _ => ⟨.rejectedStatus code, fs2⟩
    | .netError msg =>
      ⟨.rejectedTransport msg, if flags = WriteFlags.w then fsRemove fs2 op.path else fs2⟩
  | .null => ⟨.rejectedTypeError, fs2⟩
  | .undef => ⟨.rejectedTypeError, fs2⟩

/-- `downloadToStream(operation, stream)`: `if (operation.template == null)`
(loose equality, catching both `null` and `undefined`) throw
`'Template cannot be null'` synchronously; otherwise fetch and pipe into the
caller-supplied sink.  Failures never touch the filesystem. -/
def downloadToStream (op : GitignoreOperation) (fetch : RawFetch) (fs : FileSystem)
    (sink : String) : StreamResult :=
  match op.template with
  | .null => ⟨.syncThrow "Template cannot be null", fs, sink⟩
  | .undef => ⟨.syncThrow "Template cannot be null", fs, sink⟩
  | .defined _ =>
    match fetch with
    | .ok body => ⟨.resolved, fs, sink ++ body⟩
    | .status code _ => ⟨.rejectedStatus code, fs, sink⟩
    | .netError msg => ⟨.rejectedTransport msg, fs, sink⟩

end GithubGitignoreRepositoryProvider

/-! ### `GithubGitignoreApiProvider` (templates-API strategy) -/

namespace GithubGitignoreApiProvider

/-- Result of the API provider's `getTemplates`. -/
structure ApiGetTemplatesResult where
  result : Except String (List GitignoreTemplate)
  cache : Cache (List GitignoreTemplate)
  networkCalls : Nat
deriving Repr

/-- `getTemplates()`: consult the cache under the single fixed key
`'gitignore'`; on a hit resolve the cached list with no network call; on a
miss issue one request against `/gitignore/templates` — a 200 response maps
every returned name `t` to `{ name: t, path: t }` and caches the list before
resolving; non-200 rejects with the raw body, transport errors with
`err.message`. -/
def getTemplates (cache : Cache (List GitignoreTemplate)) (now : Nat)
    (fetch : ApiListingFetch) : ApiGetTemplatesResult :=
  match cache.get "gitignore" now with
  | some item => ⟨.ok item, cache, 0⟩
  | none =>
    match fetch with
    | .ok names =>
      let templates := names.map (fun t => { name := t, path := t : GitignoreTemplate })
      ⟨.ok templates, cache.add ⟨"gitignore", templates⟩ now, 1⟩
    | .status _ body => ⟨.error body, cache, 1⟩
    | .netError msg => ⟨.error msg, cache, 1⟩

/-- `download(operation)`: same shape as the contents strategy — open the
stream (`'w'`/`'a'`), write the separator when appending, dereference
`operation.template.path` (TypeError inside the executor when absent), then
fetch: 200 pipes and resolves, non-200 rejects with the status-code-bearing
error and no cleanup, a transport error unlinks the file when flags were
`'w'` and rejects with `err.message`. -/
def download (op : GitignoreOperation) (fetch : RawFetch) (fs : FileSystem) :
    DownloadResult :=
  let flags := if op.type = GitignoreOperationType.Overwrite then WriteFlags.w else WriteFlags.a
  let fs1 := createWriteStream fs op.path flags
  let fs2 := if flags = WriteFlags.a then fsAppend fs1 op.path "\n" else fs1
  match op.template with
  | .defined _ =>
    match fetch with
    | .ok body => ⟨.resolved, fsAppend fs2 op.path body⟩
    | .status code _ => ⟨.rejectedStatus code, fs2⟩
    | .netError msg =>
      ⟨.rejectedTransport msg, if flags = WriteFlags.w then fsRemove fs2 op.path else fs2⟩
  | .null => ⟨.rejectedTypeError, fs2⟩
  | .undef => ⟨.rejectedTypeError, fs2⟩

/-- `downloadToStream(operation, stream)`: `if (operation.template === null)`
(strict equality: `undefined` passes the check) throw synchronously; with an
`undefined` template the `TypeError` is raised later, inside the promise
executor, when `operation.template.path` is dereferenced.  On a transport
error the handler runs `fs.unlink(operation.path)` when
`operation.type === Overwrite` — even though this function never created
that file — then rejects with `err.message`. -/
def downloadToStream (op : GitignoreOperation) (fetch : RawFetch) (fs : FileSystem)
    (sink : String) : StreamResult :=
  match op.template with
  | .null => ⟨.syncThrow "Template cannot be null", fs, sink⟩
  | .undef => ⟨.rejectedTypeError, fs, sink⟩
  | .defined _ =>
    match fetch with
    | .ok body => ⟨.resolved, fs, sink ++ body⟩
    | .status code _ => ⟨.rejectedStatus code, fs, sink⟩
    | .netError msg =>
      ⟨.rejectedTransport msg,
       if op.type = GitignoreOperationType.Overwrite then fsRemove fs op.path else fs, sink⟩

end GithubGitignoreApiProvider

/-! ### HTTP client policy (`http-client.ts`) -/

/-- A JS `string | undefined` value. -/
inductive JsStringValue
  | undef
  | str (s : String)
deriving DecidableEq, Repr

/-- JS truthiness of a `string | undefined` value: `undefined` and the empty
string are falsy, every other string is truthy. -/
def JsStringValue.truthy : JsStringValue → Bool
  | .undef => false
  | .str s => !s.isEmpty

/-- JS `a || b`: `a` when truthy, otherwise `b`. -/
def jsOr (a b : JsStringValue) : JsStringValue :=
  if a.truthy then a else b

/-- `getProxyConfig()`:
`httpConfig.get('proxy', undefined) || process.env.HTTPS_PROXY || process.env.HTTP_PROXY`,
with the three inputs made explicit parameters. -/
def getProxyConfig (configProxy httpsProxy httpProxy : JsStringValue) : JsStringValue :=
  jsOr configProxy (jsOr httpsProxy httpProxy)

/-! ### Spec-side definition for the listing-merge claim

Written from the spec's words — "name = filename with suffix stripped" — to
be compared against the source's `replaceFirstGitignore`. -/

/-- The spec's name mapping: the filename with the trailing `".gitignore"`
suffix stripped (drop the last 10 characters). -/
def specSuffixStrippedName (name : String) : String :=
  String.mk (name.data.take (name.data.length - gitignoreSuffix.length))

/-! ### Helper lemmas -/

/-- Looking up a path immediately after setting it yields the new content. -/
theorem fsLookup_fsSet (fs : FileSystem) (p content : String) :
    fsLookup (fsSet fs p content) p = some content := by
  simp [fsLookup, fsSet]

/-- Reading a key immediately after `add` stamps against the stored time. -/
theorem cache_get_add_same {α : Type} (c : Cache α) (k : String) (v : α) (tstore tq : Nat) :
    (c.add ⟨k, v⟩ tstore).get k tq =
      if tq - tstore < c.expirationIntervalSeconds then some v else none := by
  simp [Cache.add, Cache.get]

/-- An `add` under one key does not disturb reads of another key. -/
theorem cache_get_add_ne {α : Type} (c : Cache α) (k1 k2 : String) (v : α) (tstore tq : Nat)
    (h : k1 ≠ k2) : (c.add ⟨k1, v⟩ tstore).get k2 tq = c.get k2 tq := by
  simp [Cache.add, Cache.get, List.find?_cons, h]

/-- A `getFiles` sub-call that hits the cache resolves the cached list with
no network request and leaves the cache unchanged. -/
theorem getFiles_cache_hit (c : Cache (List GitignoreTemplate)) (p : String) (now : Nat)
    (fetch : ListingFetch) (ts : List GitignoreTemplate)
    (h : c.get ("gitignore/" ++ p) now = some ts) :
    GithubGitignoreRepositoryProvider.getFiles c p now fetch = ⟨.ok ts, c, 0⟩ := by
  unfold GithubGitignoreRepositoryProvider.getFiles
  rw [h]

/-- A `getFiles` sub-call that misses the cache and receives a 200 response
issues one network request, resolves the processed list, and stores it in
the cache under the sub-path's key. -/
theorem getFiles_cache_miss_ok (c : Cache (List GitignoreTemplate)) (p : String) (now : Nat)
    (items : List GithubRepositoryItem)
    (h : c.get ("gitignore/" ++ p) now = none) :
    GithubGitignoreRepositoryProvider.getFiles c p now (.ok items) =
      ⟨.ok (processItems items),
       c.add ⟨"gitignore/" ++ p, processItems items⟩ now, 1⟩ := by
  unfold GithubGitignoreRepositoryProvider.getFiles
  rw [h]

/-- Looking up a path right after unlinking it misses. -/
theorem fsLookup_fsRemove (fs : FileSystem) (p : String) :
    fsLookup (fsRemove fs p) p = none := by
  simp [fsLookup, fsRemove, List.find?_eq_none, List.mem_filter]

/-! ### Claim theorems -/

/-- C4: for every key K and value V, `get(K)` immediately after `add(K,V)`
returns V (this requires a positive expiration interval), `get(K)` returns
`undefined` whenever `now - storedAt` is not below the expiration interval
fixed at construction, and with expiration interval 0 every entry is
immediately stale, so `get` always returns `undefined`. -/
theorem cache_add_get_expiry {α : Type} (c : Cache α) (k : String) (v : α) (now later : Nat) :
    (0 < c.expirationIntervalSeconds → (c.add ⟨k, v⟩ now).get k now = some v) ∧
    (c.expirationIntervalSeconds ≤ later - now → (c.add ⟨k, v⟩ now).get k later = none) ∧
    (c.expirationIntervalSeconds = 0 → ∀ key t, c.get key t = none) := by
  refine ⟨fun h => ?_, fun h => ?_, fun h key t => ?_⟩
  · rw [cache_get_add_same]
    simp [h]
  · rw [cache_get_add_same]
    simp [Nat.not_lt.mpr h]
  · unfold Cache.get
    cases hf : c.store.find? (fun e => e.1 == key) with
    | none => rfl
    | some e => simp [h]

/-- Witness for C4: with interval 1, a value added at time 0 is read back at
time 0 and gone at time 5; with interval 0 a lookup always misses. -/
theorem cache_add_get_expiry_witness :
    ((⟨1, []⟩ : Cache Nat).add ⟨"foo", 42⟩ 0).get "foo" 0 = some 42 ∧
    ((⟨1, []⟩ : Cache Nat).add ⟨"foo", 42⟩ 0).get "foo" 5 = none ∧
    (⟨0, [("foo", 42, 0)]⟩ : Cache Nat).get "foo" 0 = none :=
  ⟨(cache_add_get_expiry (⟨1, []⟩ : Cache Nat) "foo" 42 0 5).1 (by decide),
   (cache_add_get_expiry (⟨1, []⟩ : Cache Nat) "foo" 42 0 5).2.1 (by decide),
   (cache_add_get_expiry (⟨0, [("foo", 42, 0)]⟩ : Cache Nat) "foo" 42 0 5).2.2 rfl "foo" 0⟩

/-- C9 counterexample: with the explicit setting and `HTTPS_PROXY` both
`undefined` and `HTTP_PROXY` set to the empty string (none of the three
non-empty), `getProxyConfig` returns the empty string, not `undefined`. -/
theorem getProxyConfig_empty_last_cex :
    getProxyConfig .undef .undef (.str "") = .str "" ∧
    (JsStringValue.str "" : JsStringValue) ≠ .undef := by
  exact ⟨rfl, by decide⟩

/-- C9 (amended): proxy resolution returns the first truthy (non-empty)
value in the order explicit setting, `HTTPS_PROXY`, `HTTP_PROXY`; when none
is non-empty it returns the value of the last operand (`HTTP_PROXY`), which
is falsy — `undefined` unless `HTTP_PROXY` is the empty string. -/
theorem getProxyConfig_resolution (a b c : JsStringValue) :
    (a.truthy = true → getProxyConfig a b c = a) ∧
    (a.truthy = false → b.truthy = true → getProxyConfig a b c = b) ∧
    (a.truthy = false → b.truthy = false → getProxyConfig a b c = c) ∧
    (a.truthy = false → b.truthy = false → c.truthy = false →
      (getProxyConfig a b c).truthy = false) := by
  unfold getProxyConfig jsOr
  refine ⟨fun h1 => ?_, fun h1 h2 => ?_, fun h1 h2 => ?_, fun h1 h2 h3 => ?_⟩
  · simp [h1]
  · simp [h1, h2]
  · simp [h1, h2]
  · simp [h1, h2, h3]

/-- Witness for C9: each resolution branch exercised at concrete values. -/
theorem getProxyConfig_resolution_witness :
    getProxyConfig (.str "http://a") .undef .undef = .str "http://a" ∧
    getProxyConfig .undef (.str "http://b") .undef = .str "http://b" ∧
    getProxyConfig .undef .undef .undef = .undef ∧
    (getProxyConfig .undef .undef .undef).truthy = false :=
  ⟨(getProxyConfig_resolution (.str "http://a") .undef .undef).1 (by decide),
   (getProxyConfig_resolution .undef (.str "http://b") .undef).2.1 (by decide) (by decide),
   (getProxyConfig_resolution .undef .undef .undef).2.2.1 (by decide) (by decide),
   (getProxyConfig_resolution .undef .undef .undef).2.2.2 (by decide) (by decide) (by decide)⟩

/-- C10: with `operation.template` being `undefined` (not `null`), the
contents-strategy `downloadToStream` throws the synchronous
`'Template cannot be null'` error (loose `== null` check), while the
templates-API `downloadToStream` passes its strict `=== null` check and
fails only later, inside the promise, with the `TypeError` raised when
`operation.template.path` is dereferenced. -/
theorem undef_template_provider_divergence (ty : GitignoreOperationType) (p : String)
    (fetch : RawFetch) (fs : FileSystem) (sink : String) :
    GithubGitignoreRepositoryProvider.downloadToStream ⟨ty, p, .undef⟩ fetch fs sink =
      ⟨.syncThrow "Template cannot be null", fs, sink⟩ ∧
    GithubGitignoreApiProvider.downloadToStream ⟨ty, p, .undef⟩ fetch fs sink =
      ⟨.rejectedTypeError, fs, sink⟩ :=
  ⟨rfl, rfl⟩

/-- C3 counterexample: appending template content `"B"` to a destination
containing `"A\n"` yields `"A\n\nB"` — the separator newline lands after the
existing trailing newline — not the claimed `"A\nB"`. -/
theorem append_separator_example_cex :
    fsLookup (GithubGitignoreRepositoryProvider.download
        ⟨.Append, "/ws/.gitignore", .defined ⟨"T", "T.gitignore"⟩⟩ (.ok "B")
        [("/ws/.gitignore", "A\n")]).fs "/ws/.gitignore" = some "A\n\nB" ∧
    ("A\n\nB" : String) ≠ "A\nB" := by
  exact ⟨by decide, by decide⟩

/-- C3 (amended): for every Append-mode download with a 200 response, in
both provider strategies, exactly one newline separator is written before
the template content and the existing content is never truncated: the final
content is the previous content followed by `"\n"` followed by the body
(so appending `"B"` to a file containing `"A\n"` yields `"A\n\nB"`, and to a
file containing `"A"` yields `"A\nB"`). -/
theorem append_download_separator (op : GitignoreOperation) (t : GitignoreTemplate)
    (body : String) (fs : FileSystem)
    (h1 : op.type = GitignoreOperationType.Append) (h2 : op.template = .defined t) :
    (GithubGitignoreRepositoryProvider.download op (.ok body) fs).outcome = .resolved ∧
    fsLookup (GithubGitignoreRepositoryProvider.download op (.ok body) fs).fs op.path =
      some (((fsLookup fs op.path).getD "") ++ "\n" ++ body) ∧
    (GithubGitignoreApiProvider.download op (.ok body) fs).outcome = .resolved ∧
    fsLookup (GithubGitignoreApiProvider.download op (.ok body) fs).fs op.path =
      some (((fsLookup fs op.path).getD "") ++ "\n" ++ body) := by
  unfold GithubGitignoreRepositoryProvider.download GithubGitignoreApiProvider.download
  rw [h1, h2]
  simp [createWriteStream, fsAppend, fsLookup_fsSet]

/-- Witness for C3: appending `"B"` to a file containing `"A"` resolves and
leaves content `"A" ++ "\n" ++ "B"`. -/
theorem append_download_separator_witness :
    (GithubGitignoreRepositoryProvider.download
        ⟨.Append, "g", .defined ⟨"T", "T.gitignore"⟩⟩ (.ok "B") [("g", "A")]).outcome =
      .resolved ∧
    fsLookup (GithubGitignoreRepositoryProvider.download
        ⟨.Append, "g", .defined ⟨"T", "T.gitignore"⟩⟩ (.ok "B") [("g", "A")]).fs "g" =
      some (((fsLookup [("g", "A")] "g").getD "") ++ "\n" ++ "B") ∧
    (GithubGitignoreApiProvider.download
        ⟨.Append, "g", .defined ⟨"T", "T.gitignore"⟩⟩ (.ok "B") [("g", "A")]).outcome =
      .resolved ∧
    fsLookup (GithubGitignoreApiProvider.download
        ⟨.Append, "g", .defined ⟨"T", "T.gitignore"⟩⟩ (.ok "B") [("g", "A")]).fs "g" =
      some (((fsLookup [("g", "A")] "g").getD "") ++ "\n" ++ "B") :=
  append_download_separator ⟨.Append, "g", .defined ⟨"T", "T.gitignore"⟩⟩ ⟨"T", "T.gitignore"⟩
    "B" [("g", "A")] rfl rfl

/-- C8: for every failing Append-mode download (non-200 or transport error),
in both provider strategies, the destination file is not deleted and holds
exactly its previous content followed by the single separator newline
written before the fetch — the mutation is not rolled back for Append mode
and the call does not resolve. -/
theorem append_download_failure_preserves_file (op : GitignoreOperation)
    (t : GitignoreTemplate) (fetch : RawFetch) (fs : FileSystem)
    (h1 : op.type = GitignoreOperationType.Append) (h2 : op.template = .defined t)
    (h3 : fetch.failed = true) :
    fsLookup (GithubGitignoreRepositoryProvider.download op fetch fs).fs op.path =
      some (((fsLookup fs op.path).getD "") ++ "\n") ∧
    (GithubGitignoreRepositoryProvider.download op fetch fs).outcome ≠ .resolved ∧
    fsLookup (GithubGitignoreApiProvider.download op fetch fs).fs op.path =
      some (((fsLookup fs op.path).getD "") ++ "\n") ∧
    (GithubGitignoreApiProvider.download op fetch fs).outcome ≠ .resolved := by
  unfold GithubGitignoreRepositoryProvider.download GithubGitignoreApiProvider.download
  rw [h1, h2]
  cases fetch with
  | ok body => simp [RawFetch.failed] at h3
  | status code body => simp [createWriteStream, fsAppend, fsLookup_fsSet]
  | netError msg => simp [createWriteStream, fsAppend, fsLookup_fsSet]

/-- Witness for C8: a transport error while appending to a file containing
`"A"` leaves content `"A" ++ "\n"` in both strategies and neither call
resolves. -/
theorem append_download_failure_preserves_file_witness :
    fsLookup (GithubGitignoreRepositoryProvider.download
        ⟨.Append, "g", .defined ⟨"T", "T.gitignore"⟩⟩ (.netError "reset") [("g", "A")]).fs
      "g" = some (((fsLookup [("g", "A")] "g").getD "") ++ "\n") ∧
    (GithubGitignoreRepositoryProvider.download
        ⟨.Append, "g", .defined ⟨"T", "T.gitignore"⟩⟩ (.netError "reset")
        [("g", "A")]).outcome ≠ .resolved ∧
    fsLookup (GithubGitignoreApiProvider.download
        ⟨.Append, "g", .defined ⟨"T", "T.gitignore"⟩⟩ (.netError "reset") [("g", "A")]).fs
      "g" = some (((fsLookup [("g", "A")] "g").getD "") ++ "\n") ∧
    (GithubGitignoreApiProvider.download
        ⟨.Append, "g", .defined ⟨"T", "T.gitignore"⟩⟩ (.netError "reset")
        [("g", "A")]).outcome ≠ .resolved :=
  append_download_failure_preserves_file ⟨.Append, "g", .defined ⟨"T", "T.gitignore"⟩⟩
    ⟨"T", "T.gitignore"⟩ (.netError "reset") [("g", "A")] rfl rfl rfl

/-- C1 counterexample: a non-200 response on an Overwrite-mode download
rejects with the status-code-bearing error, but the freshly created
(truncated, empty) destination file is NOT deleted — rollback does not
happen for non-200 failures, only for network-level errors. -/
theorem download_overwrite_non200_no_rollback_cex :
    (GithubGitignoreRepositoryProvider.download
        ⟨.Overwrite, "/ws/.gitignore", .defined ⟨"C", "C.gitignore"⟩⟩
        (.status 404 "Not Found") []).outcome = .rejectedStatus 404 ∧
    fsLookup (GithubGitignoreRepositoryProvider.download
        ⟨.Overwrite, "/ws/.gitignore", .defined ⟨"C", "C.gitignore"⟩⟩
        (.status 404 "Not Found") []).fs "/ws/.gitignore" = some "" := by
  exact ⟨by decide, by decide⟩

/-- C1 (amended): for every download whose remote fetch fails, in both
provider strategies, a non-200 response rejects with the status-code-bearing
error and leaves the destination file in place (no rollback), while a
network-level error rejects with the transport error message and, when the
operation's type is Overwrite, deletes the freshly created destination file
before the error propagates. -/
theorem download_failure_rollback_semantics (op : GitignoreOperation)
    (t : GitignoreTemplate) (fs : FileSystem) (code : Nat) (body msg : String)
    (h2 : op.template = .defined t) :
    (GithubGitignoreRepositoryProvider.download op (.status code body) fs).outcome =
      .rejectedStatus code ∧
    fsLookup (GithubGitignoreRepositoryProvider.download op (.status code body) fs).fs
      op.path ≠ none ∧
    (GithubGitignoreRepositoryProvider.download op (.netError msg) fs).outcome =
      .rejectedTransport msg ∧
    (op.type = GitignoreOperationType.Overwrite →
      fsLookup (GithubGitignoreRepositoryProvider.download op (.netError msg) fs).fs
        op.path = none) ∧
    (GithubGitignoreApiProvider.download op (.status code body) fs).outcome =
      .rejectedStatus code ∧
    fsLookup (GithubGitignoreApiProvider.download op (.status code body) fs).fs
      op.path ≠ none ∧
    (GithubGitignoreApiProvider.download op (.netError msg) fs).outcome =
      .rejectedTransport msg ∧
    (op.type = GitignoreOperationType.Overwrite →
      fsLookup (GithubGitignoreApiProvider.download op (.netError msg) fs).fs
        op.path = none) := by
  rcases op with ⟨ty, p, tmpl⟩
  simp only at h2
  subst h2
  unfold GithubGitignoreRepositoryProvider.download GithubGitignoreApiProvider.download
  cases ty <;>
    simp [createWriteStream, fsAppend, fsLookup_fsSet, fsLookup_fsRemove]

/-- Witness for C1 (amended): an Overwrite-mode download over an empty
filesystem, with a 404 response and with a transport error. -/
theorem download_failure_rollback_semantics_witness :
    (GithubGitignoreRepositoryProvider.download
        ⟨.Overwrite, "g", .defined ⟨"C", "C.gitignore"⟩⟩ (.status 404 "nf") []).outcome =
      .rejectedStatus 404 ∧
    fsLookup (GithubGitignoreRepositoryProvider.download
        ⟨.Overwrite, "g", .defined ⟨"C", "C.gitignore"⟩⟩ (.status 404 "nf") []).fs
      "g" ≠ none ∧
    (GithubGitignoreRepositoryProvider.download
        ⟨.Overwrite, "g", .defined ⟨"C", "C.gitignore"⟩⟩ (.netError "reset") []).outcome =
      .rejectedTransport "reset" ∧
    ((⟨.Overwrite, "g", .defined ⟨"C", "C.gitignore"⟩⟩ : GitignoreOperation).type =
        GitignoreOperationType.Overwrite →
      fsLookup (GithubGitignoreRepositoryProvider.download
          ⟨.Overwrite, "g", .defined ⟨"C", "C.gitignore"⟩⟩ (.netError "reset") []).fs
        "g" = none) ∧
    (GithubGitignoreApiProvider.download
        ⟨.Overwrite, "g", .defined ⟨"C", "C.gitignore"⟩⟩ (.status 404 "nf") []).outcome =
      .rejectedStatus 404 ∧
    fsLookup (GithubGitignoreApiProvider.download
        ⟨.Overwrite, "g", .defined ⟨"C", "C.gitignore"⟩⟩ (.status 404 "nf") []).fs
      "g" ≠ none ∧
    (GithubGitignoreApiProvider.download
        ⟨.Overwrite, "g", .defined ⟨"C", "C.gitignore"⟩⟩ (.netError "reset") []).outcome =
      .rejectedTransport "reset" ∧
    ((⟨.Overwrite, "g", .defined ⟨"C", "C.gitignore"⟩⟩ : GitignoreOperation).type =
        GitignoreOperationType.Overwrite →
      fsLookup (GithubGitignoreApiProvider.download
          ⟨.Overwrite, "g", .defined ⟨"C", "C.gitignore"⟩⟩ (.netError "reset") []).fs
        "g" = none) :=
  download_failure_rollback_semantics ⟨.Overwrite, "g", .defined ⟨"C", "C.gitignore"⟩⟩
    ⟨"C", "C.gitignore"⟩ [] 404 "nf" "reset" rfl

/-- C6 counterexample: `download` with a `null` template does not fail fast:
the destination file is created (truncated to empty) by the write-stream
open before the absent template is dereferenced, and the failure is an
asynchronous promise rejection (a TypeError), not a synchronous throw. -/
theorem download_null_template_not_failfast_cex :
    (GithubGitignoreRepositoryProvider.download ⟨.Overwrite, "/ws/.gitignore", .null⟩
        (.ok "body") []).outcome = .rejectedTypeError ∧
    fsLookup (GithubGitignoreRepositoryProvider.download
        ⟨.Overwrite, "/ws/.gitignore", .null⟩ (.ok "body") []).fs "/ws/.gitignore" =
      some "" := by
  exact ⟨by decide, by decide⟩

/-- C6 (amended): when the operation's template is absent (null or
undefined), `downloadToStream` of the contents strategy fails immediately
and synchronously, before any filesystem or network I/O, leaving filesystem
and sink untouched; `download` performs no such check — it opens the
destination write stream first (creating/truncating the file for Overwrite,
opening for append plus writing the separator newline for Append) and only
then fails, asynchronously, with the TypeError raised inside the promise. -/
theorem absent_template_failfast_split (op : GitignoreOperation) (fetch : RawFetch)
    (fs : FileSystem) (sink : String)
    (h : op.template = .null ∨ op.template = .undef) :
    GithubGitignoreRepositoryProvider.downloadToStream op fetch fs sink =
      ⟨.syncThrow "Template cannot be null", fs, sink⟩ ∧
    (GithubGitignoreRepositoryProvider.download op fetch fs).outcome =
      .rejectedTypeError ∧
    (GithubGitignoreRepositoryProvider.download op fetch fs).fs =
      (if op.type = GitignoreOperationType.Overwrite then fsSet fs op.path ""
       else fsAppend (fsSet fs op.path ((fsLookup fs op.path).getD "")) op.path "\n") := by
  rcases op with ⟨ty, p, tmpl⟩
  simp only at h
  rcases h with h | h <;> subst h <;> cases ty <;> exact ⟨rfl, rfl, rfl⟩

/-- Witness for C6 (amended): a null-template Overwrite operation. -/
theorem absent_template_failfast_split_witness :
    GithubGitignoreRepositoryProvider.downloadToStream ⟨.Overwrite, "g", .null⟩
        (.ok "body") [] "" = ⟨.syncThrow "Template cannot be null", [], ""⟩ ∧
    (GithubGitignoreRepositoryProvider.download ⟨.Overwrite, "g", .null⟩
        (.ok "body") []).outcome = .rejectedTypeError ∧
    (GithubGitignoreRepositoryProvider.download ⟨.Overwrite, "g", .null⟩
        (.ok "body") []).fs =
      (if (⟨.Overwrite, "g", .null⟩ : GitignoreOperation).type =
          GitignoreOperationType.Overwrite then fsSet [] "g" ""
       else fsAppend (fsSet [] "g" ((fsLookup [] "g").getD "")) "g" "\n") :=
  absent_template_failfast_split ⟨.Overwrite, "g", .null⟩ (.ok "body") [] ""
    (Or.inl rfl)

/-- C7: evaluating both strategies' `downloadToStream` on a transport error
in Overwrite mode shows the divergence: the contents strategy leaves the
caller's pre-existing file alone, but the templates-API strategy deletes
`operation.path` — a file this function never created — contradicting its
own cleanup comment ("Delete the .gitignore file if we created it") and the
caller-owned sink lifecycle. -/
theorem api_stream_overwrite_transport_deletes_file :
    fsLookup (GithubGitignoreRepositoryProvider.downloadToStream
        ⟨.Overwrite, "/ws/.gitignore", .defined ⟨"C", "C"⟩⟩ (.netError "socket hang up")
        [("/ws/.gitignore", "caller content")] "").fs "/ws/.gitignore" =
      some "caller content" ∧
    fsLookup (GithubGitignoreApiProvider.downloadToStream
        ⟨.Overwrite, "/ws/.gitignore", .defined ⟨"C", "C"⟩⟩ (.netError "socket hang up")
        [("/ws/.gitignore", "caller content")] "").fs "/ws/.gitignore" = none := by
  exact ⟨by decide, by decide⟩

/-- C2 counterexample: an entry named `"a.gitignoreB.gitignore"` (kind
"file", template suffix present) is mapped to name `"aB.gitignore"` — the
non-global regex `/\.gitignore/` removes the FIRST occurrence — not to the
suffix-stripped `"a.gitignoreB"` the claim requires. -/
theorem getTemplates_name_mapping_cex :
    (GithubGitignoreRepositoryProvider.getTemplates (fun _ _ => 0) ⟨3600, []⟩ 0
        (.ok [⟨"a.gitignoreB.gitignore", "a.gitignoreB.gitignore", "", "file"⟩])
        (.ok [])).result = .ok [⟨"aB.gitignore", "a.gitignoreB.gitignore"⟩] ∧
    specSuffixStrippedName "a.gitignoreB.gitignore" = "a.gitignoreB" ∧
    ("aB.gitignore" : String) ≠ "a.gitignoreB" := by
  exact ⟨rfl, by decide, by decide⟩

/-- C2 (amended): every successful cold-cache `getTemplates()` result of the
contents strategy equals the concatenation of the root and "Global"
listings, restricted to entries whose type is "file" and whose name ends
with ".gitignore", each mapped to a Template whose name is the filename with
the FIRST occurrence of ".gitignore" removed (which coincides with suffix
stripping whenever ".gitignore" occurs only once) and whose path is the
remote-relative path, the whole list sorted ascending by the locale
comparator on names (here abstract, assumed total and transitive). -/
theorem getTemplates_merge_filter_sort (cmp : String → String → Int)
    (c : Cache (List GitignoreTemplate)) (now : Nat)
    (root global : List GithubRepositoryItem)
    (h1 : c.get "gitignore/" now = none)
    (h2 : c.get "gitignore/Global" now = none)
    (htot : ∀ x y : String, cmp x y ≤ 0 ∨ cmp y x ≤ 0)
    (htrans : ∀ x y z : String, cmp x y ≤ 0 → cmp y z ≤ 0 → cmp x z ≤ 0) :
    (GithubGitignoreRepositoryProvider.getTemplates cmp c now
        (.ok root) (.ok global)).result =
      .ok (sortTemplates cmp (processItems root ++ processItems global)) ∧
    (sortTemplates cmp (processItems root ++ processItems global)).Perm
      (processItems root ++ processItems global) ∧
    List.Sorted (fun a b : GitignoreTemplate => cmp a.name b.name ≤ 0)
      (sortTemplates cmp (processItems root ++ processItems global)) ∧
    processItems root ++ processItems global = processItems (root ++ global) ∧
    (∀ tpl : GitignoreTemplate, tpl ∈ processItems (root ++ global) ↔
      ∃ item ∈ root ++ global, item.type = "file" ∧
        nameEndsWithGitignore item.name = true ∧
        tpl = ⟨replaceFirstGitignore item.name, item.path⟩) := by
  have hroot := getFiles_cache_miss_ok c "" now root h1
  have hgkey : ("gitignore/" : String) ≠ "gitignore/Global" := by decide
  have hg : (c.add ⟨"gitignore/" ++ "", processItems root⟩ now).get
      ("gitignore/" ++ "Global") now = none := by
    rw [show ("gitignore/" ++ "" : String) = "gitignore/" from rfl]
    rw [show ("gitignore/" ++ "Global" : String) = "gitignore/Global" from rfl]
    rw [cache_get_add_ne _ _ _ _ _ _ hgkey]
    exact h2
  have hglobal := getFiles_cache_miss_ok
    (c.add ⟨"gitignore/" ++ "", processItems root⟩ now) "Global" now global hg
  refine ⟨?_, ?_, ?_, ?_, ?_⟩
  · simp only [GithubGitignoreRepositoryProvider.getTemplates, hroot, hglobal]
  · exact List.perm_insertionSort _ _
  · haveI : IsTotal GitignoreTemplate (fun a b => cmp a.name b.name ≤ 0) :=
      ⟨fun a b => htot a.name b.name⟩
    haveI : IsTrans GitignoreTemplate (fun a b => cmp a.name b.name ≤ 0) :=
      ⟨fun a b d hab hbd => htrans a.name b.name d.name hab hbd⟩
    exact List.sorted_insertionSort _ _
  · simp [processItems, List.filter_append]
  · intro tpl
    simp only [processItems, List.mem_map, List.mem_filter, Bool.and_eq_true, beq_iff_eq]
    constructor
    · rintro ⟨item, ⟨hmem, hty, hsuf⟩, rfl⟩
      exact ⟨item, hmem, hty, hsuf, rfl⟩
    · rintro ⟨item, hmem, hty, hsuf, rfl⟩
      exact ⟨item, ⟨hmem, hty, hsuf⟩, rfl⟩

/-- Witness for C2 (amended): a cold cache, a one-entry root listing and an
empty Global listing, with the trivial (total, transitive) comparator. -/
theorem getTemplates_merge_filter_sort_witness :
    (GithubGitignoreRepositoryProvider.getTemplates (fun _ _ => 0) ⟨3600, []⟩ 0
        (.ok [⟨"C.gitignore", "C.gitignore", "", "file"⟩]) (.ok [])).result =
      .ok (sortTemplates (fun _ _ => 0)
        (processItems [⟨"C.gitignore", "C.gitignore", "", "file"⟩] ++ processItems [])) ∧
    (sortTemplates (fun _ _ => 0)
        (processItems [⟨"C.gitignore", "C.gitignore", "", "file"⟩] ++
          processItems [])).Perm
      (processItems [⟨"C.gitignore", "C.gitignore", "", "file"⟩] ++ processItems []) ∧
    List.Sorted (fun _ _ : GitignoreTemplate => (0 : Int) ≤ 0)
      (sortTemplates (fun _ _ => 0)
        (processItems [⟨"C.gitignore", "C.gitignore", "", "file"⟩] ++ processItems [])) ∧
    processItems [⟨"C.gitignore", "C.gitignore", "", "file"⟩] ++ processItems [] =
      processItems ([⟨"C.gitignore", "C.gitignore", "", "file"⟩] ++ []) ∧
    (∀ tpl : GitignoreTemplate,
      tpl ∈ processItems ([⟨"C.gitignore", "C.gitignore", "", "file"⟩] ++ []) ↔
      ∃ item ∈ [(⟨"C.gitignore", "C.gitignore", "", "file"⟩ : GithubRepositoryItem)] ++ [],
        item.type = "file" ∧ nameEndsWithGitignore item.name = true ∧
        tpl = ⟨replaceFirstGitignore item.name, item.path⟩) :=
  getTemplates_merge_filter_sort (fun _ _ => 0) ⟨3600, []⟩ 0
    [⟨"C.gitignore", "C.gitignore", "", "file"⟩] [] rfl rfl
    (fun _ _ => Or.inl (Int.le_refl 0)) (fun _ _ _ _ _ => Int.le_refl 0)

/-- C5: for both provider strategies, a listing call whose cache lookup
succeeds issues no network request and returns the cached list, and on a
cache miss the fetched list is stored under the listing key before the call
resolves; consequently two consecutive `getTemplates()` calls within the
expiration window issue exactly one network call per distinct sub-path (the
second call issues zero and returns the same result), and a call after
expiry issues a fresh network call per sub-path. -/
theorem provider_caching_idempotent
    (c0 : Cache (List GitignoreTemplate)) (p : String) (now t1 t2 : Nat)
    (ts : List GitignoreTemplate) (items : List GithubRepositoryItem)
    (names : List String) (fetch : ListingFetch) (apiFetch : ApiListingFetch)
    (cmp : String → String → Int)
    (rootItems globalItems rootItems2 globalItems2 : List GithubRepositoryItem)
    (f1 f2 : ListingFetch)
    (hmr : c0.get "gitignore/" now = none)
    (hmg : c0.get "gitignore/Global" now = none)
    (hwin1 : t1 - now < c0.expirationIntervalSeconds)
    (hexp : c0.expirationIntervalSeconds ≤ t2 - now) :
    (∀ c : Cache (List GitignoreTemplate), c.get ("gitignore/" ++ p) now = some ts →
      GithubGitignoreRepositoryProvider.getFiles c p now fetch = ⟨.ok ts, c, 0⟩) ∧
    (∀ c : Cache (List GitignoreTemplate), c.get ("gitignore/" ++ p) now = none →
      GithubGitignoreRepositoryProvider.getFiles c p now (.ok items) =
        ⟨.ok (processItems items),
         c.add ⟨"gitignore/" ++ p, processItems items⟩ now, 1⟩) ∧
    (∀ c : Cache (List GitignoreTemplate), c.get "gitignore" now = some ts →
      GithubGitignoreApiProvider.getTemplates c now apiFetch = ⟨.ok ts, c, 0⟩) ∧
    (∀ c : Cache (List GitignoreTemplate), c.get "gitignore" now = none →
      GithubGitignoreApiProvider.getTemplates c now (.ok names) =
        ⟨.ok (names.map fun t => ⟨t, t⟩),
         c.add ⟨"gitignore", names.map fun t => ⟨t, t⟩⟩ now, 1⟩) ∧
    (GithubGitignoreRepositoryProvider.getTemplates cmp c0 now
        (.ok rootItems) (.ok globalItems) =
      ⟨.ok (sortTemplates cmp (processItems rootItems ++ processItems globalItems)),
       (c0.add ⟨"gitignore/", processItems rootItems⟩ now).add
         ⟨"gitignore/Global", processItems globalItems⟩ now, 1, 1⟩) ∧
    (GithubGitignoreRepositoryProvider.getTemplates cmp
        ((c0.add ⟨"gitignore/", processItems rootItems⟩ now).add
          ⟨"gitignore/Global", processItems globalItems⟩ now) t1 f1 f2 =
      ⟨.ok (sortTemplates cmp (processItems rootItems ++ processItems globalItems)),
       (c0.add ⟨"gitignore/", processItems rootItems⟩ now).add
         ⟨"gitignore/Global", processItems globalItems⟩ now, 0, 0⟩) ∧
    ((GithubGitignoreRepositoryProvider.getTemplates cmp
        ((c0.add ⟨"gitignore/", processItems rootItems⟩ now).add
          ⟨"gitignore/Global", processItems globalItems⟩ now) t2
        (.ok rootItems2) (.ok globalItems2)).rootCalls = 1 ∧
     (GithubGitignoreRepositoryProvider.getTemplates cmp
        ((c0.add ⟨"gitignore/", processItems rootItems⟩ now).add
          ⟨"gitignore/Global", processItems globalItems⟩ now) t2
        (.ok rootItems2) (.ok globalItems2)).globalCalls = 1) := by
  have hgkey : ("gitignore/" : String) ≠ "gitignore/Global" := by decide
  have hne2 : ("gitignore/Global" : String) ≠ "gitignore/" := by decide
  refine ⟨?_, ?_, ?_, ?_, ?_, ?_, ?_⟩
  · exact fun c h => getFiles_cache_hit c p now fetch ts h
  · exact fun c h => getFiles_cache_miss_ok c p now items h
  · intro c h
    unfold GithubGitignoreApiProvider.getTemplates
    rw [h]
  · intro c h
    unfold GithubGitignoreApiProvider.getTemplates
    rw [h]
  · have hroot := getFiles_cache_miss_ok c0 "" now rootItems hmr
    have hg : (c0.add ⟨"gitignore/" ++ "", processItems rootItems⟩ now).get
        ("gitignore/" ++ "Global") now = none := by
      rw [show ("gitignore/" ++ "" : String) = "gitignore/" from rfl,
          show ("gitignore/" ++ "Global" : String) = "gitignore/Global" from rfl,
          cache_get_add_ne _ _ _ _ _ _ hgkey]
      exact hmg
    have hglobal := getFiles_cache_miss_ok
      (c0.add ⟨"gitignore/" ++ "", processItems rootItems⟩ now) "Global" now
      globalItems hg
    simp only [GithubGitignoreRepositoryProvider.getTemplates, hroot, hglobal]
    rfl
  · have hh1 : ((c0.add ⟨"gitignore/", processItems rootItems⟩ now).add
        ⟨"gitignore/Global", processItems globalItems⟩ now).get "gitignore/" t1 =
        some (processItems rootItems) := by
      rw [cache_get_add_ne _ _ _ _ _ _ hne2, cache_get_add_same]
      exact if_pos hwin1
    have hh2 : ((c0.add ⟨"gitignore/", processItems rootItems⟩ now).add
        ⟨"gitignore/Global", processItems globalItems⟩ now).get "gitignore/Global" t1 =
        some (processItems globalItems) := by
      rw [cache_get_add_same]
      exact if_pos hwin1
    have h21 := getFiles_cache_hit
      ((c0.add ⟨"gitignore/", processItems rootItems⟩ now).add
        ⟨"gitignore/Global", processItems globalItems⟩ now) "" t1 f1
      (processItems rootItems) hh1
    have h22 := getFiles_cache_hit
      ((c0.add ⟨"gitignore/", processItems rootItems⟩ now).add
        ⟨"gitignore/Global", processItems globalItems⟩ now) "Global" t1 f2
      (processItems globalItems) hh2
    simp only [GithubGitignoreRepositoryProvider.getTemplates, h21, h22]
  · have hs1 : ((c0.add ⟨"gitignore/", processItems rootItems⟩ now).add
        ⟨"gitignore/Global", processItems globalItems⟩ now).get "gitignore/" t2 =
        none := by
      rw [cache_get_add_ne _ _ _ _ _ _ hne2, cache_get_add_same]
      exact if_neg (Nat.not_lt.mpr hexp)
    have hs2 : ((c0.add ⟨"gitignore/", processItems rootItems⟩ now).add
        ⟨"gitignore/Global", processItems globalItems⟩ now).get "gitignore/Global" t2 =
        none := by
      rw [cache_get_add_same]
      exact if_neg (Nat.not_lt.mpr hexp)
    have h31 := getFiles_cache_miss_ok
      ((c0.add ⟨"gitignore/", processItems rootItems⟩ now).add
        ⟨"gitignore/Global", processItems globalItems⟩ now) "" t2 rootItems2 hs1
    have hs2' : (((c0.add ⟨"gitignore/", processItems rootItems⟩ now).add
        ⟨"gitignore/Global", processItems globalItems⟩ now).add
          ⟨"gitignore/" ++ "", processItems rootItems2⟩ t2).get
        ("gitignore/" ++ "Global") t2 = none := by
      rw [show ("gitignore/" ++ "" : String) = "gitignore/" from rfl,
          show ("gitignore/" ++ "Global" : String) = "gitignore/Global" from rfl,
          cache_get_add_ne _ _ _ _ _ _ hgkey]
      exact hs2
    have h32 := getFiles_cache_miss_ok
      (((c0.add ⟨"gitignore/", processItems rootItems⟩ now).add
        ⟨"gitignore/Global", processItems globalItems⟩ now).add
          ⟨"gitignore/" ++ "", processItems rootItems2⟩ t2) "Global" t2
      globalItems2 hs2'
    constructor <;>
      simp only [GithubGitignoreRepositoryProvider.getTemplates, h31, h32]

/-- Witness for C5: interval 10, writes at time 0, a hit at time 5, expiry
at time 10, with concrete one-entry listings. -/
theorem provider_caching_idempotent_witness :
    (∀ c : Cache (List GitignoreTemplate), c.get ("gitignore/" ++ "X") 0 = some [] →
      GithubGitignoreRepositoryProvider.getFiles c "X" 0 (.ok []) = ⟨.ok [], c, 0⟩) ∧
    (∀ c : Cache (List GitignoreTemplate), c.get ("gitignore/" ++ "X") 0 = none →
      GithubGitignoreRepositoryProvider.getFiles c "X" 0 (.ok []) =
        ⟨.ok (processItems []), c.add ⟨"gitignore/" ++ "X", processItems []⟩ 0, 1⟩) ∧
    (∀ c : Cache (List GitignoreTemplate), c.get "gitignore" 0 = some [] →
      GithubGitignoreApiProvider.getTemplates c 0 (.ok ["C"]) = ⟨.ok [], c, 0⟩) ∧
    (∀ c : Cache (List GitignoreTemplate), c.get "gitignore" 0 = none →
      GithubGitignoreApiProvider.getTemplates c 0 (.ok ["C"]) =
        ⟨.ok (["C"].map fun t => ⟨t, t⟩),
         c.add ⟨"gitignore", ["C"].map fun t => ⟨t, t⟩⟩ 0, 1⟩) ∧
    (GithubGitignoreRepositoryProvider.getTemplates (fun _ _ => 0) ⟨10, []⟩ 0
        (.ok [⟨"C.gitignore", "C.gitignore", "", "file"⟩]) (.ok []) =
      ⟨.ok (sortTemplates (fun _ _ => 0)
          (processItems [⟨"C.gitignore", "C.gitignore", "", "file"⟩] ++ processItems [])),
       ((⟨10, []⟩ : Cache (List GitignoreTemplate)).add
          ⟨"gitignore/", processItems [⟨"C.gitignore", "C.gitignore", "", "file"⟩]⟩ 0).add
         ⟨"gitignore/Global", processItems []⟩ 0, 1, 1⟩) ∧
    (GithubGitignoreRepositoryProvider.getTemplates (fun _ _ => 0)
        (((⟨10, []⟩ : Cache (List GitignoreTemplate)).add
          ⟨"gitignore/", processItems [⟨"C.gitignore", "C.gitignore", "", "file"⟩]⟩ 0).add
         ⟨"gitignore/Global", processItems []⟩ 0) 5 (.netError "down") (.netError "down") =
      ⟨.ok (sortTemplates (fun _ _ => 0)
          (processItems [⟨"C.gitignore", "C.gitignore", "", "file"⟩] ++ processItems [])),
       ((⟨10, []⟩ : Cache (List GitignoreTemplate)).add
          ⟨"gitignore/", processItems [⟨"C.gitignore", "C.gitignore", "", "file"⟩]⟩ 0).add
         ⟨"gitignore/Global", processItems []⟩ 0, 0, 0⟩) ∧
    ((GithubGitignoreRepositoryProvider.getTemplates (fun _ _ => 0)
        (((⟨10, []⟩ : Cache (List GitignoreTemplate)).add
          ⟨"gitignore/", processItems [⟨"C.gitignore", "C.gitignore", "", "file"⟩]⟩ 0).add
         ⟨"gitignore/Global", processItems []⟩ 0) 10
        (.ok [⟨"D.gitignore", "D.gitignore", "", "file"⟩]) (.ok [])).rootCalls = 1 ∧
     (GithubGitignoreRepositoryProvider.getTemplates (fun _ _ => 0)
        (((⟨10, []⟩ : Cache (List GitignoreTemplate)).add
          ⟨"gitignore/", processItems [⟨"C.gitignore", "C.gitignore", "", "file"⟩]⟩ 0).add
         ⟨"gitignore/Global", processItems []⟩ 0) 10
        (.ok [⟨"D.gitignore", "D.gitignore", "", "file"⟩]) (.ok [])).globalCalls = 1) :=
  provider_caching_idempotent ⟨10, []⟩ "X" 0 5 10 [] [] ["C"] (.ok []) (.ok ["C"])
    (fun _ _ => 0) [⟨"C.gitignore", "C.gitignore", "", "file"⟩] []
    [⟨"D.gitignore", "D.gitignore", "", "file"⟩] [] (.netError "down") (.netError "down")
    rfl rfl (by decide) (by decide)

end VscodeGitignore
